import Mathlib

/-!
Verification of the ai-image-generator Flask application (app.py, models.py,
config.py) against its natural-language specification.

The Python code is shallowly embedded: database tables become lists of rows,
the SQLAlchemy session's commit/rollback behaviour becomes explicit state
passing with injected failure points, HTTP and AWS collaborators become
oracle parameters supplying their observable outcomes, and Python strings
become Lean strings (character lists where Python string algorithms are
modelled).  Every definition is translated from the source file it names.
-/

set_option maxHeartbeats 1000000

namespace AIImageGen

/-! ### Password hashing (flask_bcrypt, used at app.py lines 230 and 277)

bcrypt is an external library; it is modelled as an idealized collision-free
salted one-way hash: the digest of `password` under `salt` is the pair
`(salt, password)`, an injective function of the password for a fixed salt.
`check_password_hash` re-derives the digest from the stored salt, exactly as
bcrypt does. -/

/-- A stored bcrypt hash: salt plus digest (idealized as an injective pair). -/
structure PasswordHash where
  salt : Nat
  digest : Nat × String
deriving DecidableEq

/-- Model of `bcrypt.generate_password_hash(password)` (app.py line 230); the
salt is drawn by the library and is a parameter here. -/
def generate_password_hash (salt : Nat) (password : String) : PasswordHash :=
  { salt := salt, digest := (salt, password) }

/-- Model of `bcrypt.check_password_hash(hash, password)` (app.py line 277). -/
def check_password_hash (h : PasswordHash) (password : String) : Bool :=
  h.digest == (h.salt, password)

/-! ### Database rows (models.py)

ORM-managed columns that no verified property mentions (`created_at` on
users/images, autoincrement `id` on images and stats, `thumbnail_key`) are
omitted; `id` on users is kept because UserStats rows reference it. -/

/-- A committed row of the `users` table (models.py `User`). -/
structure UserRow where
  id : Nat
  username : String
  email : String
  password_hash : PasswordHash
  is_admin : Bool
deriving DecidableEq

/-- A committed row of the `user_stats` table (models.py `UserStats`). -/
structure StatsRow where
  user_id : Nat
  total_generations : Nat
  total_images : Nat
  last_generation : Option Nat
deriving DecidableEq

/-- A committed row of the `images` table (models.py `Image`). -/
structure ImageRow where
  user_id : Nat
  prompt : String
  model : String
  filename : String
  s3_key : Option String
  cloudfront_url : Option String
  size : String
  quality : String
deriving DecidableEq

/-- The committed database state: the three tables plus the autoincrement
counter for user ids. -/
structure DBState where
  users : List UserRow
  stats : List StatsRow
  images : List ImageRow
  nextUserId : Nat
deriving DecidableEq

/-- A freshly initialized database (`flask init-db`). -/
def emptyDB : DBState := { users := [], stats := [], images := [], nextUserId := 0 }

/-- Model of `User.query.filter_by(username=username).first()` (app.py line 221/275). -/
def findUserByName (st : DBState) (username : String) : Option UserRow :=
  st.users.find? (fun r => decide (r.username = username))

/-- Model of `User.query.filter_by(email=email).first()` (app.py line 225). -/
def findUserByEmail (st : DBState) (email : String) : Option UserRow :=
  st.users.find? (fun r => decide (r.email = email))

/-- Model of `UserStats.query.filter_by(user_id=uid).first()` (app.py line 406). -/
def getStats (st : DBState) (uid : Nat) : Option StatsRow :=
  st.stats.find? (fun s => decide (s.user_id = uid))

/-- Number of committed `users` rows carrying a given username. -/
def countUsersNamed (st : DBState) (username : String) : Nat :=
  (st.users.filter (fun r => decide (r.username = username))).length

/-! ### Registration (app.py lines 204-264)

The POST branch of `/register` for an anonymous caller.  The body runs inside
`try/except`; the handler rolls the session back, so an exception discards
pending (uncommitted) work but cannot undo an already-completed commit.  The
realistic exception sites are the two `db.session.commit()` calls (lines 238
and 243); `failAt` injects a failure at either. -/

/-- Outcome of the registration POST, one constructor per `flash`/redirect. -/
inductive RegOutcome
  | missingFields
  | dupUsername
  | dupEmail
  | dbError
  | success (uid : Nat)
deriving DecidableEq

/-- Which of the two `db.session.commit()` calls inside `register` fails. -/
inductive RegFailPoint
  | commit1
  | commit2
deriving DecidableEq

/-- Model of the `register` POST handler (app.py lines 209-263). -/
def register (st : DBState) (username email password : String) (salt : Nat)
    (failAt : Option RegFailPoint) : RegOutcome × DBState :=
  if username = "" ∨ email = "" ∨ password = "" then (.missingFields, st)
  else if (findUserByName st username).isSome then (.dupUsername, st)
  else if (findUserByEmail st email).isSome then (.dupEmail, st)
  else if failAt = some RegFailPoint.commit1 then (.dbError, st)
  else
    let uid := st.nextUserId
    let st1 : DBState :=
      { st with
        users := st.users ++
          [{ id := uid, username := username, email := email,
             password_hash := generate_password_hash salt password,
             is_admin := false }],
        nextUserId := uid + 1 }
    if failAt = some RegFailPoint.commit2 then (.dbError, st1)
    else
      (.success uid,
       { st1 with stats := st1.stats ++
          [{ user_id := uid, total_generations := 0, total_images := 0,
             last_generation := none }] })

/-! ### Login (app.py lines 266-286) -/

/-- Outcome of the login POST. -/
inductive LoginOutcome
  | success (uid : Nat)
  | invalid
deriving DecidableEq

/-- Model of the `login` POST handler (app.py lines 271-284): look the user up
by username, verify the hash, otherwise flash an invalid-credentials error. -/
def login (st : DBState) (username password : String) : LoginOutcome :=
  match findUserByName st username with
  | some u => if check_password_hash u.password_hash password then .success u.id else .invalid
  | none => .invalid

/-- A demonstration user and database used by witness statements. -/
def demoUser : UserRow :=
  { id := 0, username := "alice", email := "alice@example.com",
    password_hash := generate_password_hash 7 ("secret"), is_admin := false }

/-- A database holding exactly `demoUser` and its zero-valued stats row. -/
def demoDB : DBState :=
  { users := [demoUser],
    stats := [{ user_id := 0, total_generations := 0, total_images := 0,
                last_generation := none }],
    images := [], nextUserId := 1 }

/-! ### Base64 (Python `base64` module, used at app.py line 110)

Bytes are `Nat` values below 256; Python strings are modelled as `List Char`
where string algorithms (split, startswith) are involved.  `b64decodePy`
models `base64.b64decode` on standard-alphabet, properly padded input;
malformed input (which raises `binascii.Error`, caught by the caller's
`except`) is modelled as `none`. -/

/-- The standard base64 alphabet, in value order. -/
def b64Chars : List Char :=
  "ABCDEFGHIJKLMNOPQRSTUVWXYZabcdefghijklmnopqrstuvwxyz0123456789+/".data

/-- Character for a sextet value. -/
def b64Char (n : Nat) : Char := b64Chars.getD n 'A'

/-- Sextet value of a character, `none` when outside the alphabet. -/
def b64Val (c : Char) : Option Nat := b64Chars.indexOf? c

/-- Model of `base64.b64encode` output (as characters): three input bytes map
to four sextet characters; a final one- or two-byte remainder is padded with
`=`. -/
def b64encode : List Nat → List Char
  | [] => []
  | [b1] => [b64Char (b1 / 4), b64Char (b1 % 4 * 16), '=', '=']
  | [b1, b2] =>
      [b64Char (b1 / 4), b64Char (b1 % 4 * 16 + b2 / 16), b64Char (b2 % 16 * 4), '=']
  | b1 :: b2 :: b3 :: rest =>
      b64Char (b1 / 4) :: b64Char (b1 % 4 * 16 + b2 / 16) ::
      b64Char (b2 % 16 * 4 + b3 / 64) :: b64Char (b3 % 64) :: b64encode rest

/-- Decoding of the final four-character group, honouring `=` padding. -/
def b64DecodeLast (c1 c2 c3 c4 : Char) : Option (List Nat) :=
  if c4 = '=' then
    if c3 = '=' then
      match b64Val c1, b64Val c2 with
      | some v1, some v2 => some [v1 * 4 + v2 / 16]
      | _, _ => none
    else
      match b64Val c1, b64Val c2, b64Val c3 with
      | some v1, some v2, some v3 => some [v1 * 4 + v2 / 16, v2 % 16 * 16 + v3 / 4]
      | _, _, _ => none
  else
    match b64Val c1, b64Val c2, b64Val c3, b64Val c4 with
    | some v1, some v2, some v3, some v4 =>
        some [v1 * 4 + v2 / 16, v2 % 16 * 16 + v3 / 4, v3 % 4 * 64 + v4]
    | _, _, _, _ => none

/-- Model of `base64.b64decode` (app.py line 110) on standard-alphabet input:
four-character groups, `=` padding allowed only in the final group; input
whose length is not a multiple of four, or with characters outside the
alphabet in a non-final position, raises and is modelled as `none`. -/
def b64decodePy : List Char → Option (List Nat)
  | [] => some []
  | c1 :: c2 :: c3 :: c4 :: rest =>
      if rest.isEmpty then b64DecodeLast c1 c2 c3 c4
      else
        match b64Val c1, b64Val c2, b64Val c3, b64Val c4, b64decodePy rest with
        | some v1, some v2, some v3, some v4, some bs =>
            some ((v1 * 4 + v2 / 16) :: (v2 % 16 * 16 + v3 / 4) :: (v3 % 4 * 64 + v4) :: bs)
        | _, _, _, _, _ => none
  | _ => none

/-- Model of Python `str.split(',')`: split on every comma, keeping empty
segments, one segment more than the number of commas. -/
def pySplitAux : List Char → List Char → List (List Char)
  | acc, [] => [acc]
  | acc, c :: rest => if c = ',' then acc :: pySplitAux [] rest else pySplitAux (acc ++ [c]) rest

/-- `pySplit l` is Python `l.split(',')`. -/
def pySplit (l : List Char) : List (List Char) := pySplitAux [] l

/-- Model of app.py lines 107-108: when the payload starts with `data:image`,
replace it by the second comma-separated segment; Python raises `IndexError`
(caught by the surrounding `except`, modelled as `none`) when no comma exists. -/
def stripDataUriHeader (l : List Char) : Option (List Char) :=
  if "data:image".data.isPrefixOf l then (pySplit l)[1]? else some l

/-- The decode pipeline of `save_base64_image` (app.py lines 107-110): strip a
data-URI header, then base64-decode. -/
def strippedDecode (l : List Char) : Option (List Nat) :=
  (stripDataUriHeader l).bind b64decodePy

/-! ### Storage backend (app.py lines 52-125, 466-469)

The AWS collaborators are oracles inside `StorageCfg`: whether the boto3
client was constructed, the configured bucket/CDN strings (`""` models an
unset environment variable, which is falsy in Python), and whether the
`put_object` call succeeds.  The local media directory is a list of
filename/bytes pairs. -/

/-- Configuration and environment oracle for the storage helpers. -/
structure StorageCfg where
  use_s3 : Bool
  s3_client : Bool
  bucket : String
  cloudfront : String
  region : String
  putObjectOk : Bool

/-- The local media directory: stored files, newest first. -/
abbrev MediaFolder : Type := List (String × List Nat)

/-- Model of `get_cloudfront_url` (app.py lines 52-58). -/
def get_cloudfront_url (cfg : StorageCfg) (s3_key : String) : String :=
  if cfg.cloudfront ≠ "" ∧ cfg.cloudfront.trim ≠ "" then
    "https://" ++ cfg.cloudfront ++ "/" ++ s3_key
  else
    "https://" ++ cfg.bucket ++ ".s3." ++ cfg.region ++ ".amazonaws.com/" ++ s3_key

/-- The value returned by `upload_to_s3`: the early-return path yields a bare
Python `None` (`single`), the normal paths yield a 2-tuple. -/
inductive UploadResult
  | single
  | pair (key url : Option String)
deriving DecidableEq

/-- Model of `upload_to_s3` (app.py lines 61-81): a single `None` when the
client or bucket is missing; `(key, url)` on successful `put_object`;
`(None, None)` when `put_object` raises. -/
def upload_to_s3 (cfg : StorageCfg) (_file_data : List Nat) (filename : String) :
    UploadResult :=
  if cfg.s3_client = false ∨ cfg.bucket = "" then .single
  else if cfg.putObjectOk then
    .pair (some ("images/" ++ filename))
          (some (get_cloudfront_url cfg ("images/" ++ filename)))
  else .pair none none

/-- Model of `save_image_from_url` (app.py lines 83-102).  `httpResp` is the
outcome of `requests.get`: `none` for a raised network error, otherwise the
status code and body bytes.  Returns the `(s3_key, image_url)` pair and the
media directory afterwards. -/
def save_image_from_url (cfg : StorageCfg) (media : MediaFolder)
    (httpResp : Option (Nat × List Nat)) (filename : String) :
    (Option String × Option String) × MediaFolder :=
  match httpResp with
  | none => ((none, none), media)
  | some (status, content) =>
    if status = 200 then
      if cfg.use_s3 then
        match upload_to_s3 cfg content filename with
        | .single => ((none, none), media)
        | .pair k u =>
          if k.getD "" ≠ "" then ((k, u), media)
          else ((some filename, some ("/media/" ++ filename)),
                (filename, content) :: media)
      else ((some filename, some ("/media/" ++ filename)),
            (filename, content) :: media)
    else ((none, none), media)

/-- Model of `save_base64_image` (app.py lines 104-125): strip any data-URI
header, decode, then upload to S3 with local fallback exactly as
`save_image_from_url` does; any raised exception (bad base64, missing comma
after a `data:image` marker, unpacking a bare `None` from `upload_to_s3`)
lands in the `except` block returning `(None, None)` with no file written. -/
def save_base64_image (cfg : StorageCfg) (media : MediaFolder)
    (base64_data : List Char) (filename : String) :
    (Option String × Option String) × MediaFolder :=
  match stripDataUriHeader base64_data with
  | none => ((none, none), media)
  | some payload =>
    match b64decodePy payload with
    | none => ((none, none), media)
    | some image_data =>
      if cfg.use_s3 then
        match upload_to_s3 cfg image_data filename with
        | .single => ((none, none), media)
        | .pair k u =>
          if k.getD "" ≠ "" then ((k, u), media)
          else ((some filename, some ("/media/" ++ filename)),
                (filename, image_data) :: media)
      else ((some filename, some ("/media/" ++ filename)),
            (filename, image_data) :: media)

/-- Model of the `/media/<filename>` route (app.py lines 466-469):
`send_from_directory` serves the stored bytes, 404 (`none`) when absent. -/
def serve_media (media : MediaFolder) (filename : String) : Option (List Nat) :=
  (media.find? (fun e => decide (e.1 = filename))).map (fun e => e.2)

/-- Storage configuration for witnesses: S3 mode with a live client and bucket
whose `put_object` call fails. -/
def demoCfg : StorageCfg :=
  { use_s3 := true, s3_client := true, bucket := "imgbucket", cloudfront := "",
    region := "us-east-1", putObjectOk := false }

/-- Storage configuration for witnesses: S3 mode but the boto3 client was never
constructed. -/
def demoCfgNoClient : StorageCfg :=
  { use_s3 := true, s3_client := false, bucket := "imgbucket", cloudfront := "",
    region := "us-east-1", putObjectOk := true }

/-! ### Generation gateway and the `/api/generate` endpoint (app.py 143-177, 355-451)

The external generation API is an oracle: `apiResp` is the outcome of the
`requests.post` call (`none` for a raised network error, otherwise the status
code and the parsed JSON payload).  The per-entry storage helpers
(`save_image_from_url` / `save_base64_image`) run against their own HTTP and
AWS environment; inside the endpoint their observable outcome is the returned
`(s3_key, image_url)` pair, supplied by the `saveFn` oracle, and the generated
`timestamp_uuid_index` filenames by the `fnames` oracle. -/

/-- One entry of the generation result's `data` array: a remote URL, an inline
base64 payload, or neither (skipped by the endpoint). -/
inductive ImageEntry
  | url (u : String)
  | b64 (s : String)
  | other
deriving DecidableEq

/-- The parsed JSON payload of a 200 response from `/v1/images/generations`;
`result.get('data', [])` makes a missing key the empty list. -/
structure GenPayload where
  data : List ImageEntry
deriving DecidableEq

/-- CloudWatch metric emissions (cloudwatch_helper.py), recorded in order. -/
inductive MetricEvent
  | apiTime
  | appError (kind : String)
  | generation (success : Bool) (model : String)
deriving DecidableEq

/-- Model of `generate_image` (app.py lines 143-177): on a raised network error
record an APIGeneration error and return `None`; otherwise record the latency
metric, then return the payload on status 200 and record an error and return
`None` on any other status.  The prompt/model/size/quality parameters only
shape the outbound request, which the `apiResp` oracle subsumes. -/
def generate_image (_prompt _model_id _size _quality : String)
    (apiResp : Option (Nat × GenPayload)) : Option GenPayload × List MetricEvent :=
  match apiResp with
  | none => (none, [.appError ("APIGeneration")])
  | some (status, payload) =>
    if status = 200 then (some payload, [.apiTime])
    else (none, [.apiTime, .appError ("APIGeneration")])

/-- The JSON body of a POST to `/api/generate`; `data.get(key, default)`
semantics make every field optional. -/
structure ReqBody where
  prompt : Option String
  model : Option String
  size : Option String
  quality : Option String

/-- The request's environment: the generation API outcome, the storage
helpers' outcomes per entry index, the generated filenames, the configured
storage mode, whether the final `db.session.commit()` succeeds, and the
current time. -/
structure ApiGenEnv where
  apiResp : Option (Nat × GenPayload)
  saveFn : Nat → ImageEntry → Option String × Option String
  fnames : Nat → String
  use_s3 : Bool
  commitOk : Bool
  now : Nat

/-- Model of the save loop (app.py lines 379-403): for each entry, entries with
neither `url` nor `b64_json` are skipped; otherwise the storage helper runs and
an Image row is added to the session (and its dict appended to `saved_images`)
exactly when the returned `image_url` is truthy. -/
def saveImagesLoop (uid : Nat) (prompt model_id size quality : String) (use_s3 : Bool)
    (fnames : Nat → String) (saveFn : Nat → ImageEntry → Option String × Option String) :
    Nat → List ImageEntry → List ImageRow
  | _, [] => []
  | i, .other :: rest =>
      saveImagesLoop uid prompt model_id size quality use_s3 fnames saveFn (i + 1) rest
  | i, .url u :: rest =>
      let r := saveFn i (.url u)
      if r.2.getD "" = "" then
        saveImagesLoop uid prompt model_id size quality use_s3 fnames saveFn (i + 1) rest
      else
        { user_id := uid, prompt := prompt, model := model_id, filename := fnames i,
          s3_key := if use_s3 then r.1 else none,
          cloudfront_url := if use_s3 then r.2 else none,
          size := size, quality := quality }
          :: saveImagesLoop uid prompt model_id size quality use_s3 fnames saveFn (i + 1) rest
  | i, .b64 s :: rest =>
      let r := saveFn i (.b64 s)
      if r.2.getD "" = "" then
        saveImagesLoop uid prompt model_id size quality use_s3 fnames saveFn (i + 1) rest
      else
        { user_id := uid, prompt := prompt, model := model_id, filename := fnames i,
          s3_key := if use_s3 then r.1 else none,
          cloudfront_url := if use_s3 then r.2 else none,
          size := size, quality := quality }
          :: saveImagesLoop uid prompt model_id size quality use_s3 fnames saveFn (i + 1) rest

/-- The Image rows a request builds from a 200 payload. -/
def genRows (uid : Nat) (body : ReqBody) (env : ApiGenEnv) (payload : GenPayload) :
    List ImageRow :=
  saveImagesLoop uid (body.prompt.getD "") (body.model.getD ("img3"))
    (body.size.getD ("1024x1024")) (body.quality.getD ("standard"))
    env.use_s3 env.fnames env.saveFn 0 payload.data

/-- In-place update of the stats row for `uid` (SQLAlchemy mutates the loaded
persistent object; the commit makes it durable). -/
def updateStats (l : List StatsRow) (uid : Nat) (s' : StatsRow) : List StatsRow :=
  l.map (fun s => if s.user_id = uid then s' else s)

/-- What `/api/generate` produces: the HTTP status, the saved image rows
echoed in the response body, the committed database afterwards, and the
metrics recorded. -/
structure ApiGenResult where
  status : Nat
  images : List ImageRow
  state : DBState
  metrics : List MetricEvent

/-- Model of the `api_generate` handler (app.py lines 355-451) for an
authenticated user `uid`.  Empty prompt: 400 before anything else.  Falsy
generation result: failure metric, 500.  Otherwise build the Image rows,
update (or create) the stats row exactly once with the count of rows actually
saved, and commit everything at once; a commit exception rolls the session
back — the committed state is unchanged — records an error metric and returns
500; on success the metric and the 200 response carry the saved rows. -/
def api_generate (st : DBState) (uid : Nat) (body : ReqBody) (env : ApiGenEnv) :
    ApiGenResult :=
  let prompt := body.prompt.getD ""
  let model_id := body.model.getD ("img3")
  let size := body.size.getD ("1024x1024")
  let quality := body.quality.getD ("standard")
  if prompt = "" then { status := 400, images := [], state := st, metrics := [] }
  else
    match generate_image prompt model_id size quality env.apiResp with
    | (none, m1) =>
        { status := 500, images := [], state := st,
          metrics := m1 ++ [.generation false model_id] }
    | (some payload, m1) =>
      let rows := genRows uid body env payload
      let newStats :=
        match getStats st uid with
        | some s =>
            updateStats st.stats uid
              { s with total_generations := s.total_generations + 1,
                       total_images := s.total_images + rows.length,
                       last_generation := some env.now }
        | none =>
            st.stats ++
              [{ user_id := uid, total_generations := 1, total_images := rows.length,
                 last_generation := some env.now }]
      if env.commitOk then
        { status := 200, images := rows,
          state := { st with images := st.images ++ rows, stats := newStats },
          metrics := m1 ++ [.generation true model_id] }
      else
        { status := 500, images := [], state := st,
          metrics := m1 ++ [.appError ("Generation")] }

/-- Sequential processing of several `/api/generate` requests by one user. -/
def runGenRequests (st : DBState) (uid : Nat) : List (ReqBody × ApiGenEnv) → DBState
  | [] => st
  | (b, e) :: rest => runGenRequests (api_generate st uid b e).state uid rest

/-- A request that the claim calls successful: non-empty prompt, generation
API returned 200, final commit succeeds. -/
def goodReq (r : ReqBody × ApiGenEnv) : Prop :=
  r.1.prompt.getD "" ≠ ""
  ∧ (match r.2.apiResp with
     | some (status, _) => status = 200
     | none => False)
  ∧ r.2.commitOk = true

/-- The number of images a request actually saves. -/
def reqSaved (uid : Nat) (r : ReqBody × ApiGenEnv) : Nat :=
  match r.2.apiResp with
  | some (_, payload) => (genRows uid r.1 r.2 payload).length
  | none => 0

/-- A concrete request body for witnesses. -/
def demoBody : ReqBody :=
  { prompt := some ("a cat"), model := none, size := none, quality := none }

/-- A concrete environment for witnesses: the API returns one inline image,
whose save succeeds locally; the commit succeeds. -/
def demoEnv : ApiGenEnv :=
  { apiResp := some (200, { data := [.b64 ("aGk=")] }),
    saveFn := fun i _ => (some ((Nat.toDigits 10 i).asString ++ ".png"),
                          some ("/media/" ++ (Nat.toDigits 10 i).asString ++ ".png")),
    fnames := fun i => (Nat.toDigits 10 i).asString ++ ".png",
    use_s3 := false, commitOk := true, now := 1700000000 }

/-- `demoEnv` with the generation API failing with status 503. -/
def demoEnvFail : ApiGenEnv :=
  { demoEnv with apiResp := some (503, { data := [] }) }

end AIImageGen

namespace AIImageGen

/-! ### Helper lemmas on list search -/

theorem find?_append_none {α : Type} (p : α → Bool) (l₁ l₂ : List α)
    (h : l₁.find? p = none) : (l₁ ++ l₂).find? p = l₂.find? p := by
  induction l₁ with
  | nil => simp
  | cons a l ih =>
    rw [List.find?_eq_none] at h
    have hpa : p a = false := by
      have := h a (by simp)
      simpa using this
    have hrest : l.find? p = none := by
      rw [List.find?_eq_none]
      intro x hx
      exact h x (by simp [hx])
    simp [List.find?_cons, hpa, ih hrest]

/-! ### Base64 lemmas -/

theorem b64Val_b64Char : ∀ n, n < 64 → b64Val (b64Char n) = some n := by decide

theorem b64Char_ne_pad : ∀ n, n < 64 → b64Char n ≠ '=' := by decide

theorem b64encode_ne_nil (b : List Nat) (h : b ≠ []) : b64encode b ≠ [] := by
  match b with
  | [] => simp at h
  | [b1] => simp [b64encode]
  | [b1, b2] => simp [b64encode]
  | b1 :: b2 :: b3 :: rest => simp [b64encode]

theorem b64_roundtrip : ∀ (b : List Nat), (∀ x ∈ b, x < 256) →
    b64decodePy (b64encode b) = some b
  | [], _ => rfl
  | [b1], h => by
    have h1 : b1 < 256 := h b1 (by simp)
    have e1 : b64Val (b64Char (b1 / 4)) = some (b1 / 4) := b64Val_b64Char _ (by omega)
    have e2 : b64Val (b64Char (b1 % 4 * 16)) = some (b1 % 4 * 16) :=
      b64Val_b64Char _ (by omega)
    simp [b64encode, b64decodePy, b64DecodeLast, e1, e2]
    omega
  | [b1, b2], h => by
    have h1 : b1 < 256 := h b1 (by simp)
    have h2 : b2 < 256 := h b2 (by simp)
    have e1 : b64Val (b64Char (b1 / 4)) = some (b1 / 4) := b64Val_b64Char _ (by omega)
    have e2 : b64Val (b64Char (b1 % 4 * 16 + b2 / 16)) = some (b1 % 4 * 16 + b2 / 16) :=
      b64Val_b64Char _ (by omega)
    have e3 : b64Val (b64Char (b2 % 16 * 4)) = some (b2 % 16 * 4) :=
      b64Val_b64Char _ (by omega)
    have ne3 : b64Char (b2 % 16 * 4) ≠ '=' := b64Char_ne_pad _ (by omega)
    simp [b64encode, b64decodePy, b64DecodeLast, e1, e2, e3, ne3]
    omega
  | b1 :: b2 :: b3 :: rest, h => by
    have h1 : b1 < 256 := h b1 (by simp)
    have h2 : b2 < 256 := h b2 (by simp)
    have h3 : b3 < 256 := h b3 (by simp)
    have hrest : ∀ x ∈ rest, x < 256 := fun x hx => h x (by simp [hx])
    have e1 : b64Val (b64Char (b1 / 4)) = some (b1 / 4) := b64Val_b64Char _ (by omega)
    have e2 : b64Val (b64Char (b1 % 4 * 16 + b2 / 16)) = some (b1 % 4 * 16 + b2 / 16) :=
      b64Val_b64Char _ (by omega)
    have e3 : b64Val (b64Char (b2 % 16 * 4 + b3 / 64)) = some (b2 % 16 * 4 + b3 / 64) :=
      b64Val_b64Char _ (by omega)
    have e4 : b64Val (b64Char (b3 % 64)) = some (b3 % 64) := b64Val_b64Char _ (by omega)
    match hr : rest with
    | [] =>
      have ne3 : b64Char (b2 % 16 * 4 + b3 / 64) ≠ '=' := b64Char_ne_pad _ (by omega)
      have ne4 : b64Char (b3 % 64) ≠ '=' := b64Char_ne_pad _ (by omega)
      simp [b64encode, b64decodePy, b64DecodeLast, e1, e2, e3, e4, ne3, ne4]
      omega
    | r1 :: rrest =>
      have hne : b64encode (r1 :: rrest) ≠ [] := b64encode_ne_nil _ (by simp)
      have ih := b64_roundtrip (r1 :: rrest) (by intro x hx; exact hrest x (by simp_all))
      simp [b64encode, b64decodePy, List.isEmpty_iff, hne, e1, e2, e3, e4, ih]
      omega

theorem pySplitAux_no_comma : ∀ (l acc : List Char), ',' ∉ l → pySplitAux acc l = [acc ++ l]
  | [], acc, _ => by simp [pySplitAux]
  | c :: rest, acc, h => by
    have hc : c ≠ ',' := fun he => h (by simp [he])
    have hr : ',' ∉ rest := fun he => h (by simp [he])
    simp [pySplitAux, hc, pySplitAux_no_comma rest (acc ++ [c]) hr]

theorem pySplitAux_comma : ∀ (hd acc t : List Char), ',' ∉ hd →
    pySplitAux acc (hd ++ ',' :: t) = (acc ++ hd) :: pySplitAux [] t
  | [], acc, t, _ => by simp [pySplitAux]
  | c :: rest, acc, t, h => by
    have hc : c ≠ ',' := fun he => h (by simp [he])
    have hr : ',' ∉ rest := fun he => h (by simp [he])
    have ih := pySplitAux_comma rest (acc ++ [c]) t hr
    simp only [List.cons_append, pySplitAux, if_neg hc, List.append_eq]
    rw [ih]
    simp

theorem b64Char_mem (n : Nat) : b64Char n ∈ b64Chars := by
  by_cases h : n < b64Chars.length
  · simp [b64Char, List.getD_eq_getElem?_getD, List.getElem?_eq_getElem h]
  · simp [b64Char, List.getD_eq_getElem?_getD,
      List.getElem?_eq_none (by omega : b64Chars.length ≤ n)]
    decide

theorem b64encode_chars : ∀ (b : List Nat), ∀ c ∈ b64encode b, c ∈ b64Chars ∨ c = '='
  | [], c, hc => by simp [b64encode] at hc
  | [b1], c, hc => by
    simp only [b64encode, List.mem_cons, List.not_mem_nil, or_false] at hc
    rcases hc with h | h | h | h <;> simp [h, b64Char_mem]
  | [b1, b2], c, hc => by
    simp only [b64encode, List.mem_cons, List.not_mem_nil, or_false] at hc
    rcases hc with h | h | h | h <;> simp [h, b64Char_mem]
  | b1 :: b2 :: b3 :: rest, c, hc => by
    simp only [b64encode, List.mem_cons] at hc
    rcases hc with h | h | h | h | h
    · simp [h, b64Char_mem]
    · simp [h, b64Char_mem]
    · simp [h, b64Char_mem]
    · simp [h, b64Char_mem]
    · exact b64encode_chars rest c h

theorem comma_not_in_encode (b : List Nat) : ',' ∉ b64encode b := by
  intro hmem
  rcases b64encode_chars b ',' hmem with h | h
  · exact absurd h (by decide)
  · exact absurd h (by decide)

theorem encode_no_marker (b : List Nat) :
    "data:image".data.isPrefixOf (b64encode b) = false := by
  rw [Bool.eq_false_iff]
  intro hp
  rw [List.isPrefixOf_iff_prefix] at hp
  obtain ⟨t, ht⟩ := hp
  have hcolon : ':' ∈ b64encode b := by
    rw [← ht]
    have hin : ':' ∈ "data:image".data := by decide
    exact List.mem_append_left t hin
  rcases b64encode_chars b ':' hcolon with h | h
  · exact absurd h (by decide)
  · exact absurd h (by decide)

/-! ### C7: data-URI stripping and base64 decoding round-trip -/

/-- C7: for every byte string `b`, the decode pipeline of `save_base64_image`
on `base64(b)` prefixed with a `data:image/<mime>;base64,` header (comma-free
mime) strips everything up to and including the first comma and yields exactly
`b`; the same payload without the header decodes to the identical bytes. -/
theorem base64_data_uri_roundtrip (b : List Nat) (hb : ∀ x ∈ b, x < 256)
    (mime : List Char) (hm : ',' ∉ mime) :
    strippedDecode ("data:image/".data ++ mime ++ ";base64,".data ++ b64encode b) = some b
    ∧ strippedDecode (b64encode b) = some b := by
  constructor
  · have hcomma8 : ";base64,".data = ";base64".data ++ [','] := by decide
    have hdecomp : "data:image/".data ++ mime ++ ";base64,".data ++ b64encode b
        = ("data:image/".data ++ mime ++ ";base64".data) ++ ',' :: b64encode b := by
      rw [hcomma8]
      simp [List.append_assoc]
    have hmarker : "data:image".data.isPrefixOf
        ("data:image/".data ++ mime ++ ";base64,".data ++ b64encode b) = true := by
      rw [List.isPrefixOf_iff_prefix]
      have hslash : "data:image/".data = "data:image".data ++ ['/'] := by decide
      rw [hslash, List.append_assoc]
      exact List.prefix_append _ _
    have hnc : ',' ∉ "data:image/".data ++ mime ++ ";base64".data := by
      intro hcm
      simp only [List.mem_append] at hcm
      rcases hcm with (h | h) | h
      · exact absurd h (by decide)
      · exact hm h
      · exact absurd h (by decide)
    have hsplit : pySplit ("data:image/".data ++ mime ++ ";base64,".data ++ b64encode b)
        = ("data:image/".data ++ mime ++ ";base64".data) :: [b64encode b] := by
      rw [hdecomp]
      unfold pySplit
      rw [pySplitAux_comma _ _ _ hnc, pySplitAux_no_comma _ _ (comma_not_in_encode b)]
      simp
    unfold strippedDecode stripDataUriHeader
    rw [if_pos hmarker, hsplit]
    simp [b64_roundtrip b hb]
  · unfold strippedDecode stripDataUriHeader
    rw [if_neg (by simp [encode_no_marker b])]
    simp [b64_roundtrip b hb]

/-- Witness for `base64_data_uri_roundtrip` on the PNG magic bytes with a
`data:image/png;base64,` header. -/
theorem base64_data_uri_roundtrip_witness :
    strippedDecode
        ("data:image/".data ++ ("png").data ++ ";base64,".data ++ b64encode [137, 80, 78, 71])
      = some [137, 80, 78, 71]
    ∧ strippedDecode (b64encode [137, 80, 78, 71]) = some [137, 80, 78, 71] :=
  base64_data_uri_roundtrip [137, 80, 78, 71] (by decide) (("png").data) (by decide)

/-! ### C8: failed S3 upload falls back to local storage -/

/-- C8: with object-storage mode configured (`USE_S3` true, client and bucket
present) and the `put_object` upload call failing, `save_image_from_url` on a
successfully downloaded image writes the bytes into the local media directory
under the generated filename and returns `/media/filename` as the URL, and the
`/media/<filename>` route then serves exactly those bytes — the image is not
dropped. -/
theorem s3_upload_failure_local_fallback (cfg : StorageCfg) (media : MediaFolder)
    (content : List Nat) (filename : String)
    (hs3 : cfg.use_s3 = true) (hc : cfg.s3_client = true)
    (hb : cfg.bucket ≠ "") (hput : cfg.putObjectOk = false) :
    save_image_from_url cfg media (some (200, content)) filename
      = ((some filename, some ("/media/" ++ filename)), (filename, content) :: media)
    ∧ serve_media ((filename, content) :: media) filename = some content := by
  constructor
  · simp [save_image_from_url, upload_to_s3, hs3, hc, hb, hput]
  · simp [serve_media, List.find?_cons]

/-- Witness for `s3_upload_failure_local_fallback` on concrete bytes. -/
theorem s3_upload_failure_local_fallback_witness :
    save_image_from_url demoCfg [] (some (200, [1, 2, 3])) ("a.png")
      = ((some ("a.png"), some ("/media/a.png")), [(("a.png"), [1, 2, 3])])
    ∧ serve_media [(("a.png"), [1, 2, 3])] ("a.png") = some [1, 2, 3] := by
  have h := s3_upload_failure_local_fallback demoCfg [] [1, 2, 3] ("a.png")
    rfl rfl (by decide) rfl
  exact ⟨h.1, h.2⟩

/-! ### C10: a missing client/bucket yields a bare None and drops the image -/

/-- C10: in object-storage mode, when the S3 client or the bucket name is
absent, `upload_to_s3` returns a single `None` rather than a pair; the
caller's tuple unpacking of that value raises, its `except` handler returns
`(None, None)`, and the image entry is dropped with no local write.  The local
fallback is taken exactly when `upload_to_s3` returns `(None, None)` after a
failed `put_object`; a successful upload returns the S3 key and URL with no
local write either. -/
theorem upload_missing_client_drops_image (cfg : StorageCfg) (media : MediaFolder)
    (payload : List Char) (content : List Nat) (filename : String)
    (hs3 : cfg.use_s3 = true)
    (hmarker : "data:image".data.isPrefixOf payload = false)
    (hdec : b64decodePy payload = some content) :
    ((cfg.s3_client = false ∨ cfg.bucket = "") →
        upload_to_s3 cfg content filename = UploadResult.single
      ∧ save_base64_image cfg media payload filename = ((none, none), media))
    ∧ (cfg.s3_client = true → cfg.bucket ≠ "" → cfg.putObjectOk = false →
        upload_to_s3 cfg content filename = UploadResult.pair none none
      ∧ save_base64_image cfg media payload filename
          = ((some filename, some ("/media/" ++ filename)), (filename, content) :: media))
    ∧ (cfg.s3_client = true → cfg.bucket ≠ "" → cfg.putObjectOk = true →
        save_base64_image cfg media payload filename
          = ((some ("images/" ++ filename),
              some (get_cloudfront_url cfg ("images/" ++ filename))), media)) := by
  refine ⟨?_, ?_, ?_⟩
  · intro habs
    have hup : upload_to_s3 cfg content filename = UploadResult.single := by
      simp [upload_to_s3, habs]
    exact ⟨hup, by simp [save_base64_image, stripDataUriHeader, hmarker, hdec, hs3, hup]⟩
  · intro hc hb hput
    have hup : upload_to_s3 cfg content filename = UploadResult.pair none none := by
      simp [upload_to_s3, hc, hb, hput]
    exact ⟨hup, by simp [save_base64_image, stripDataUriHeader, hmarker, hdec, hs3, hup]⟩
  · intro hc hb hput
    have hup : upload_to_s3 cfg content filename
        = UploadResult.pair (some ("images/" ++ filename))
            (some (get_cloudfront_url cfg ("images/" ++ filename))) := by
      simp [upload_to_s3, hc, hb, hput]
    simp [save_base64_image, stripDataUriHeader, hmarker, hdec, hs3, hup]
    intro hempty
    have hlen := congrArg String.length hempty
    simp [String.length_append] at hlen
    exact absurd hlen.1 (by decide)

/-- Witness for `upload_missing_client_drops_image`: with no S3 client the
image entry is dropped entirely (no local file, `(None, None)` returned). -/
theorem upload_missing_client_drops_image_witness :
    upload_to_s3 demoCfgNoClient [104, 105] ("b.png") = UploadResult.single
    ∧ save_base64_image demoCfgNoClient [] (b64encode [104, 105]) ("b.png")
        = ((none, none), []) := by
  have h := upload_missing_client_drops_image demoCfgNoClient [] (b64encode [104, 105])
    [104, 105] ("b.png") rfl (encode_no_marker [104, 105])
    (b64_roundtrip [104, 105] (by decide))
  exact h.1 (Or.inl rfl)

/-! ### C2: generation-API failure returns 500 with no database mutation -/

/-- C2: for a request with a non-empty prompt whose generation-API call fails
(raised network error, or any non-200 status), `/api/generate` returns 500,
records the generation-failure metric, and commits nothing: the database state
is exactly the prior state and no image is echoed. -/
theorem api_generate_failure_no_mutation (st : DBState) (uid : Nat) (body : ReqBody)
    (env : ApiGenEnv)
    (hp : body.prompt.getD "" ≠ "")
    (hfail : env.apiResp = none ∨ ∃ s p, env.apiResp = some (s, p) ∧ s ≠ 200) :
    (api_generate st uid body env).status = 500
    ∧ (api_generate st uid body env).state = st
    ∧ (api_generate st uid body env).images = []
    ∧ MetricEvent.generation false (body.model.getD ("img3"))
        ∈ (api_generate st uid body env).metrics := by
  rcases hfail with h | ⟨s, p, h, hs⟩
  · simp [api_generate, generate_image, h, hp]
  · simp [api_generate, generate_image, h, hs, hp]

/-- Witness for `api_generate_failure_no_mutation`: a 503 from the generation
API leaves the demo database untouched and returns 500. -/
theorem api_generate_failure_no_mutation_witness :
    (api_generate demoDB 0 demoBody demoEnvFail).status = 500
    ∧ (api_generate demoDB 0 demoBody demoEnvFail).state = demoDB := by
  have h := api_generate_failure_no_mutation demoDB 0 demoBody demoEnvFail (by decide)
    (Or.inr ⟨503, { data := [] }, rfl, by decide⟩)
  exact ⟨h.1, h.2.1⟩

/-! ### C9: the endpoint's status-code contract -/

/-- C9: an empty or missing prompt yields 400 at once — the result is fixed
for every generation-API oracle, so the Generation Gateway is never consulted
and no metric fires; with a non-empty prompt the endpoint never returns 400,
returns 500 exactly when the generation result is falsy or the commit fails,
and returns 200 otherwise. -/
theorem api_generate_status_codes (st : DBState) (uid : Nat) (body : ReqBody)
    (env : ApiGenEnv) :
    (body.prompt.getD "" = "" →
        api_generate st uid body env
          = { status := 400, images := [], state := st, metrics := [] })
    ∧ (body.prompt.getD "" ≠ "" →
        (api_generate st uid body env).status ≠ 400
        ∧ ((api_generate st uid body env).status = 500 ↔
            (generate_image (body.prompt.getD "") (body.model.getD ("img3"))
              (body.size.getD ("1024x1024")) (body.quality.getD ("standard"))
              env.apiResp).1 = none ∨ env.commitOk = false)
        ∧ ((generate_image (body.prompt.getD "") (body.model.getD ("img3"))
              (body.size.getD ("1024x1024")) (body.quality.getD ("standard"))
              env.apiResp).1 ≠ none ∧ env.commitOk = true →
            (api_generate st uid body env).status = 200)) := by
  constructor
  · intro h
    simp [api_generate, h]
  · intro hp
    rcases hg : generate_image (body.prompt.getD "") (body.model.getD ("img3"))
        (body.size.getD ("1024x1024")) (body.quality.getD ("standard")) env.apiResp
      with ⟨res, m1⟩
    cases res with
    | none => refine ⟨?_, ?_, ?_⟩ <;> simp [api_generate, hp, hg]
    | some payload =>
      cases hcommit : env.commitOk with
      | true => refine ⟨?_, ?_, ?_⟩ <;> simp [api_generate, hp, hg, hcommit]
      | false => refine ⟨?_, ?_, ?_⟩ <;> simp [api_generate, hp, hg, hcommit]

/-- Witness for `api_generate_status_codes`: the empty prompt is rejected with
400 on the demo database, and the demo success request returns 200. -/
theorem api_generate_status_codes_witness :
    (api_generate demoDB 0
        { prompt := none, model := none, size := none, quality := none } demoEnv).status = 400
    ∧ (api_generate demoDB 0 demoBody demoEnv).status = 200 := by
  constructor
  · have h := (api_generate_status_codes demoDB 0
      { prompt := none, model := none, size := none, quality := none } demoEnv).1 rfl
    rw [h]
  · exact (api_generate_status_codes demoDB 0 demoBody demoEnv).2 (by decide)
      |>.2.2 ⟨by simp [generate_image, demoEnv], rfl⟩

/-! ### C3: stats are updated exactly once per request -/

theorem getStats_updateStats (l : List StatsRow) (uid : Nat) (s s' : StatsRow)
    (h : l.find? (fun x => decide (x.user_id = uid)) = some s)
    (hs' : s'.user_id = uid) :
    (updateStats l uid s').find? (fun x => decide (x.user_id = uid)) = some s' := by
  induction l with
  | nil => simp at h
  | cons a t ih =>
    by_cases ha : a.user_id = uid
    · simp [updateStats, List.find?_cons, ha, hs']
    · have h' : t.find? (fun x => decide (x.user_id = uid)) = some s := by
        simpa [List.find?_cons, ha] using h
      simpa [updateStats, List.find?_cons, ha] using ih h'

/-- One successful request: 200, and the stats row gains exactly one
generation, `reqSaved` images, and the request's timestamp. -/
theorem api_generate_success_step (st : DBState) (uid : Nat) (b : ReqBody) (e : ApiGenEnv)
    (s : StatsRow) (hs : getStats st uid = some s) (hgood : goodReq (b, e)) :
    (api_generate st uid b e).status = 200
    ∧ getStats (api_generate st uid b e).state uid
        = some { user_id := s.user_id, total_generations := s.total_generations + 1,
                 total_images := s.total_images + reqSaved uid (b, e),
                 last_generation := some e.now } := by
  obtain ⟨hp0, hresp0, hcommit0⟩ := hgood
  have hp : b.prompt.getD "" ≠ "" := hp0
  have hcommit : e.commitOk = true := hcommit0
  have hresp : (match e.apiResp with
      | some (status, _) => status = 200
      | none => False) := hresp0
  have huid : s.user_id = uid := by
    have hfs : st.stats.find? (fun x => decide (x.user_id = uid)) = some s := hs
    have := List.find?_some hfs
    exact of_decide_eq_true this
  rcases ha : e.apiResp with _ | ⟨status, payload⟩
  · rw [ha] at hresp
    simp at hresp
  · rw [ha] at hresp
    have hstatus : status = 200 := hresp
    subst hstatus
    have hg : generate_image (b.prompt.getD "") (b.model.getD ("img3"))
        (b.size.getD ("1024x1024")) (b.quality.getD ("standard")) (some (200, payload))
        = (some payload, [MetricEvent.apiTime]) := by
      simp [generate_image]
    have hsave : reqSaved uid (b, e) = (genRows uid b e payload).length := by
      simp [reqSaved, ha]
    constructor
    · simp [api_generate, hp, ha, hg, hcommit]
    · have hred : (api_generate st uid b e).state
          = { st with
              images := st.images ++ genRows uid b e payload,
              stats := updateStats st.stats uid
                { s with
                  total_generations := s.total_generations + 1,
                  total_images := s.total_images + (genRows uid b e payload).length,
                  last_generation := some e.now } } := by
        simp [api_generate, hp, ha, hg, hcommit, hs]
      rw [hred, hsave]
      have hfind := getStats_updateStats st.stats uid s
        { s with
          total_generations := s.total_generations + 1,
          total_images := s.total_images + (genRows uid b e payload).length,
          last_generation := some e.now } hs huid
      exact hfind

/-- Sequenced successful requests starting from a known stats row. -/
theorem runGenRequests_stats (uid : Nat) :
    ∀ (reqs : List (ReqBody × ApiGenEnv)) (st : DBState) (g i : Nat) (t : Option Nat),
      getStats st uid
        = some { user_id := uid, total_generations := g, total_images := i,
                 last_generation := t } →
      (∀ r ∈ reqs, goodReq r) →
      ∃ t', getStats (runGenRequests st uid reqs) uid
        = some { user_id := uid, total_generations := g + reqs.length,
                 total_images := i + (reqs.map (reqSaved uid)).sum, last_generation := t' }
  | [], st, g, i, t, hs, _ => ⟨t, by simpa [runGenRequests] using hs⟩
  | (b, e) :: rest, st, g, i, t, hs, hgood => by
    have hstep := api_generate_success_step st uid b e _ hs (hgood (b, e) (by simp))
    have ih := runGenRequests_stats uid rest (api_generate st uid b e).state (g + 1)
      (i + reqSaved uid (b, e)) (some e.now)
      (by simpa using hstep.2)
      (fun r hr => hgood r (by simp [hr]))
    obtain ⟨t', ht⟩ := ih
    refine ⟨t', ?_⟩
    simp only [runGenRequests] at *
    rw [ht]
    congr 1
    simp [Nat.add_assoc]
    omega

/-- C3: a successful request updates the requesting user's stats exactly once:
`total_generations` gains 1 (never the image count), `total_images` gains the
number of images actually saved, and `last_generation` is set to the request
time; consequently, starting from the zero-valued post-registration row, `N`
successful requests leave `total_generations = N` and `total_images` equal to
the sum of the per-request saved counts. -/
theorem api_generate_stats_accounting (uid : Nat) :
    (∀ (st : DBState) (b : ReqBody) (e : ApiGenEnv) (s : StatsRow),
      getStats st uid = some s → goodReq (b, e) →
      (api_generate st uid b e).status = 200
      ∧ getStats (api_generate st uid b e).state uid
          = some { user_id := s.user_id, total_generations := s.total_generations + 1,
                   total_images := s.total_images + reqSaved uid (b, e),
                   last_generation := some e.now })
    ∧ (∀ (st : DBState) (reqs : List (ReqBody × ApiGenEnv)),
      getStats st uid
        = some { user_id := uid, total_generations := 0, total_images := 0,
                 last_generation := none } →
      (∀ r ∈ reqs, goodReq r) →
      ∃ t', getStats (runGenRequests st uid reqs) uid
        = some { user_id := uid, total_generations := reqs.length,
                 total_images := (reqs.map (reqSaved uid)).sum, last_generation := t' }) := by
  constructor
  · exact fun st b e s hs hg => api_generate_success_step st uid b e s hs hg
  · intro st reqs hs hgood
    have h := runGenRequests_stats uid reqs st 0 0 none hs hgood
    simpa using h

/-- Witness for `api_generate_stats_accounting`: two successful demo requests,
each saving one image, leave `total_generations = 2` and `total_images = 2` on
the demo database. -/
theorem api_generate_stats_accounting_witness :
    ∃ t', getStats (runGenRequests demoDB 0 [(demoBody, demoEnv), (demoBody, demoEnv)]) 0
      = some { user_id := 0, total_generations := 2, total_images := 2,
               last_generation := t' } := by
  have hgood : goodReq (demoBody, demoEnv) := by
    refine ⟨by decide, ?_, rfl⟩
    simp [demoEnv]
  have h := (api_generate_stats_accounting 0).2 demoDB [(demoBody, demoEnv), (demoBody, demoEnv)]
    (by decide)
    (by
      intro r hr
      simp only [List.mem_cons, List.not_mem_nil, or_false] at hr
      rcases hr with rfl | rfl <;> exact hgood)
  obtain ⟨t', ht⟩ := h
  have hsum : (List.map (reqSaved 0) [(demoBody, demoEnv), (demoBody, demoEnv)]).sum = 2 := by
    decide
  have hlen : [(demoBody, demoEnv), (demoBody, demoEnv)].length = 2 := rfl
  refine ⟨t', ?_⟩
  rw [ht, hsum, hlen]

/-! ### C1: registration is not atomic -/

/-- C1 counterexample: registering `alice` on an empty database with the second
commit (the UserStats commit, app.py line 243) failing returns the error path,
yet the User row created by the first commit (line 238) stays committed while
no UserStats row exists — refuting the claim that a failure during registration
commits neither row (one atomic transaction). -/
theorem register_commit2_counterexample :
    (register emptyDB ("alice") ("alice@example.com") ("pw123") 0
        (some RegFailPoint.commit2)).1 = RegOutcome.dbError
    ∧ (register emptyDB ("alice") ("alice@example.com") ("pw123") 0
        (some RegFailPoint.commit2)).2.users.length = 1
    ∧ (register emptyDB ("alice") ("alice@example.com") ("pw123") 0
        (some RegFailPoint.commit2)).2.stats = [] := by
  decide

/-- C1 (amended): `register` creates the User row and the zero-valued UserStats
row in two separate commits, not one transaction.  On success both rows exist;
a failure at the first commit leaves the database unchanged; but a failure at
the second (stats) commit leaves the User row committed with no UserStats row. -/
theorem register_two_commit_semantics (st : DBState) (username email password : String)
    (salt : Nat)
    (hu : username ≠ "") (he : email ≠ "") (hp : password ≠ "")
    (hfu : findUserByName st username = none) (hfe : findUserByEmail st email = none) :
    ((register st username email password salt none).1 = RegOutcome.success st.nextUserId
      ∧ (register st username email password salt none).2.users
          = st.users ++
            [{ id := st.nextUserId, username := username, email := email,
               password_hash := generate_password_hash salt password, is_admin := false }]
      ∧ (register st username email password salt none).2.stats
          = st.stats ++
            [{ user_id := st.nextUserId, total_generations := 0,
               total_images := 0, last_generation := none }])
    ∧ (register st username email password salt (some RegFailPoint.commit1)).2 = st
    ∧ ((register st username email password salt (some RegFailPoint.commit2)).1
          = RegOutcome.dbError
      ∧ (register st username email password salt (some RegFailPoint.commit2)).2.users
          = st.users ++
            [{ id := st.nextUserId, username := username, email := email,
               password_hash := generate_password_hash salt password, is_admin := false }]
      ∧ (register st username email password salt (some RegFailPoint.commit2)).2.stats
          = st.stats) := by
  simp [register, hu, he, hp, hfu, hfe]

/-- Witness for `register_two_commit_semantics` at a concrete fresh registration. -/
theorem register_two_commit_semantics_witness :
    (register emptyDB ("bob") ("bob@example.com") ("pw") 0 none).1
      = RegOutcome.success 0 := by
  have h := register_two_commit_semantics emptyDB ("bob") ("bob@example.com") ("pw") 0
    (by decide) (by decide) (by decide) (by decide) (by decide)
  exact h.1.1

/-! ### C4: register followed by login succeeds -/

/-- C4: for every triple with all three fields non-empty and neither the
username nor the email previously registered, `register` (with no injected
failure) succeeds, and `login` with the same username and password on the
resulting database succeeds — the password round-trips through the bcrypt
hash produced at registration. -/
theorem register_then_login_roundtrip (st : DBState) (username email password : String)
    (salt : Nat)
    (hu : username ≠ "") (he : email ≠ "") (hp : password ≠ "")
    (hfu : findUserByName st username = none) (hfe : findUserByEmail st email = none) :
    (register st username email password salt none).1 = RegOutcome.success st.nextUserId
    ∧ login (register st username email password salt none).2 username password
        = LoginOutcome.success st.nextUserId := by
  have hreg : (register st username email password salt none).2.users
      = st.users ++
        [{ id := st.nextUserId, username := username, email := email,
           password_hash := generate_password_hash salt password, is_admin := false }] := by
    simp [register, hu, he, hp, hfu, hfe]
  refine ⟨by simp [register, hu, he, hp, hfu, hfe], ?_⟩
  have hfind : findUserByName (register st username email password salt none).2 username
      = some { id := st.nextUserId, username := username, email := email,
               password_hash := generate_password_hash salt password, is_admin := false } := by
    unfold findUserByName
    rw [hreg, find?_append_none _ _ _ hfu]
    simp [List.find?_cons]
  simp [login, hfind, check_password_hash, generate_password_hash]

/-- Witness for `register_then_login_roundtrip` at a concrete registration. -/
theorem register_then_login_roundtrip_witness :
    login (register emptyDB ("carol") ("carol@example.com") ("hunter2") 3 none).2
        ("carol") ("hunter2") = LoginOutcome.success 0 := by
  have h := register_then_login_roundtrip emptyDB ("carol") ("carol@example.com")
    ("hunter2") 3 (by decide) (by decide) (by decide) (by decide) (by decide)
  exact h.2

/-! ### C5: wrong password or unknown username never logs in -/

/-- C5: for every registered user whose stored hash was produced by
`generate_password_hash` from some password, `login` with any different
password fails with the invalid-credentials outcome, and `login` with a
username that has no `users` row also fails. -/
theorem login_wrong_password_fails (st : DBState) (username attempt : String) :
    (∀ (u : UserRow) (salt : Nat) (password : String),
        findUserByName st username = some u →
        u.password_hash = generate_password_hash salt password →
        attempt ≠ password →
        login st username attempt = LoginOutcome.invalid)
    ∧ (findUserByName st username = none →
        login st username attempt = LoginOutcome.invalid) := by
  constructor
  · intro u salt password hfind hhash hne
    have hchk : check_password_hash u.password_hash attempt = false := by
      rw [hhash]
      simp [check_password_hash, generate_password_hash]
      intro h
      exact absurd h.symm hne
    simp [login, hfind, hchk]
  · intro h
    simp [login, h]

/-- Witness for `login_wrong_password_fails`: a wrong password for the demo
user, and an unknown username, are both rejected on the demo database. -/
theorem login_wrong_password_fails_witness :
    login demoDB ("alice") ("wrong") = LoginOutcome.invalid
    ∧ login demoDB ("mallory") ("secret") = LoginOutcome.invalid := by
  refine ⟨?_, ?_⟩
  · exact (login_wrong_password_fails demoDB ("alice") ("wrong")).1
      demoUser 7 ("secret") (by decide) (by decide) (by decide)
  · exact (login_wrong_password_fails demoDB ("mallory") ("secret")).2 (by decide)

/-! ### C6: duplicate username rejected, exactly one row remains -/

/-- C6: after a successful registration of `username`, a second registration
attempt with the same username (any other valid fields, any failure injection)
returns the duplicate-username outcome — a constructor distinct from the
duplicate-email outcome — leaves the database exactly as it was, and the
database holds exactly one `users` row with that username. -/
theorem register_duplicate_username (st : DBState)
    (username email password : String) (salt : Nat)
    (email2 password2 : String) (salt2 : Nat) (failAt2 : Option RegFailPoint)
    (h0 : countUsersNamed st username = 0)
    (hu : username ≠ "") (he : email ≠ "") (hp : password ≠ "")
    (he2 : email2 ≠ "") (hp2 : password2 ≠ "")
    (hfe : findUserByEmail st email = none) :
    (register (register st username email password salt none).2
        username email2 password2 salt2 failAt2).1 = RegOutcome.dupUsername
    ∧ (register (register st username email password salt none).2
        username email2 password2 salt2 failAt2).2
        = (register st username email password salt none).2
    ∧ countUsersNamed (register st username email password salt none).2 username = 1
    ∧ RegOutcome.dupUsername ≠ RegOutcome.dupEmail := by
  have hfilter : st.users.filter (fun r => decide (r.username = username)) = [] := by
    have := h0
    unfold countUsersNamed at this
    exact List.length_eq_zero.mp this
  have hfu : findUserByName st username = none := by
    unfold findUserByName
    rw [List.find?_eq_none]
    intro x hx
    have := List.filter_eq_nil_iff.mp hfilter x hx
    simpa using this
  have hreg : (register st username email password salt none).2.users
      = st.users ++
        [{ id := st.nextUserId, username := username, email := email,
           password_hash := generate_password_hash salt password, is_admin := false }] := by
    simp [register, hu, he, hp, hfu, hfe]
  have hfind : findUserByName (register st username email password salt none).2 username
      = some { id := st.nextUserId, username := username, email := email,
               password_hash := generate_password_hash salt password, is_admin := false } := by
    unfold findUserByName
    rw [hreg, find?_append_none _ _ _ hfu]
    simp [List.find?_cons]
  generalize hst1 : (register st username email password salt none).2 = st₁ at hreg hfind
  refine ⟨?_, ?_, ?_, by decide⟩
  · simp [register, hu, he2, hp2, hfind]
  · simp [register, hu, he2, hp2, hfind]
  · unfold countUsersNamed
    rw [hreg, List.filter_append, hfilter]
    simp

/-- Witness for `register_duplicate_username`: registering `dave` twice on the
empty database. -/
theorem register_duplicate_username_witness :
    (register (register emptyDB ("dave") ("dave@example.com") ("pw") 0 none).2
        ("dave") ("dave2@example.com") ("pw2") 1 none).1 = RegOutcome.dupUsername := by
  have h := register_duplicate_username emptyDB ("dave") ("dave@example.com") ("pw") 0
    ("dave2@example.com") ("pw2") 1 none
    (by decide) (by decide) (by decide) (by decide) (by decide) (by decide) (by decide)
  exact h.1

end AIImageGen
